import Mathlib

/-!
Verification development for the `modifier_list` Blender add-on.

The Python sources embedded here are:
  * `modules/ui/modifiers_ui.py` (visibility-state resolver and UI draw paths),
  * `modules/operators/modifier_move_up.py` (list-reorder controller),
  * `modules/operators/object_remove_all_modifiers.py` (batch removal).

Modifiers and objects are modelled as plain records; Python integer
arithmetic (`np.clip` over possibly negative values) is modelled with `Int`
and `Int.toNat`; Python statements that can raise (`mods[i]` with an index
out of range) are modelled with `Except PyError`.

The fixed modifier-category sets live in `modules/modifier_categories.py`,
which is not among the provided sources; they are therefore abstract
parameters (see `ModifierCategories`).  Likewise `is_modifier_local` lives
in `modules/utils.py` and is modelled from the spec.
-/

namespace ModifierList

/-- A modifier entry, as described in the data model: a `type` drawn from a
fixed enumeration of categories (modelled as a string, as in the Python
sources), a `name` unique within the owning object, and the boolean
visibility flags read by the UI code.  `isLocal` stands for the
library-override status consulted by `is_modifier_local` (see below). -/
structure Modifier where
  type : String
  name : String
  show_render : Bool
  show_viewport : Bool
  show_in_editmode : Bool
  show_on_cage : Bool
  use_apply_on_spline : Bool
  isLocal : Bool
deriving DecidableEq, Repr

/-- An object owning an ordered sequence of modifiers and the add-on's
`ml_modifier_active_index` pointer into it. -/
structure MLObject where
  type : String
  modifiers : List Modifier
  ml_modifier_active_index : Nat
deriving DecidableEq, Repr

/-- Modelled from the spec: `is_modifier_local` (defined in
`modules/utils.py`, which is not part of the provided sources) reports
whether a modifier is a directly editable, non-library-linked entry; the
spec calls the opposite a "locked (library-linked, non-overridable) entry".
It is modelled as a per-entry flag. -/
def is_modifier_local (_ob : MLObject) (mod : Modifier) : Bool :=
  mod.isLocal

/-- Modelled from the spec: the fixed modifier-category sets defined in
`modules/modifier_categories.py`, which is not part of the provided
sources.  The spec only states that these are fixed sets of modifier
categories, so they are kept abstract here as membership predicates. -/
structure ModifierCategories where
  dont_support_show_in_editmode : String → Bool
  support_show_on_cage : String → Bool
  support_use_apply_on_spline : String → Bool

/-- The custom icon identifiers looked up in `icons.preview_collections`
(a table fixed at add-on load time). -/
inductive IconId where
  | EMPTY_SPACE
  | SHOW_IN_EDITMODE_ON
  | SHOW_IN_EDITMODE_OFF
  | SHOW_IN_EDITMODE_ON_INACTIVE
  | SHOW_IN_EDITMODE_OFF_INACTIVE
  | SHOW_ON_CAGE_ON
  | SHOW_ON_CAGE_OFF
  | SHOW_ON_CAGE_ON_INACTIVE
  | SHOW_ON_CAGE_OFF_INACTIVE
  | USE_APPLY_ON_SPLINE_ON
  | USE_APPLY_ON_SPLINE_OFF
deriving DecidableEq, Repr

/-- A widget placed by the visibility-button helpers: an (empty) label, a
toggle bound to a named modifier property (`icon = none` means the
property's default icon), or a `wm.properties_context_change` operator
button targeting the given properties tab. -/
inductive Widget where
  | label (icon : IconId)
  | prop (propName : String) (icon : Option IconId) (emboss : Bool)
  | contextChange (target : String)
deriving DecidableEq, Repr

/-- One `layout.row` produced by the button helpers: the row's `active`
flag (False renders its content greyed out) and the widget put in it. -/
structure ButtonRow where
  active : Bool
  widget : Widget
deriving DecidableEq, Repr

/-- `show_in_editmode_button` (modifiers_ui.py lines 42-62): either an
empty placeholder label (for unsupported categories) or the
`show_in_editmode` toggle in the appropriate icon/enabled state. -/
def show_in_editmode_button (cats : ModifierCategories) (modifier : Modifier)
    (use_in_list : Bool) : ButtonRow :=
  if cats.dont_support_show_in_editmode modifier.type then
    { active := true, widget := .label .EMPTY_SPACE }
  else
    let rowActive := if !use_in_list then modifier.show_viewport else true
    let icons :=
      if !modifier.show_viewport && use_in_list then
        (IconId.SHOW_IN_EDITMODE_ON_INACTIVE, IconId.SHOW_IN_EDITMODE_OFF_INACTIVE)
      else
        (IconId.SHOW_IN_EDITMODE_ON, IconId.SHOW_IN_EDITMODE_OFF)
    let icon := if modifier.show_in_editmode then icons.1 else icons.2
    { active := rowActive,
      widget := .prop "show_in_editmode" (some icon) (!use_in_list) }

/-- `use_apply_on_spline_button` (modifiers_ui.py lines 65-77). -/
def use_apply_on_spline_button (cats : ModifierCategories) (modifier : Modifier)
    (use_in_list : Bool) : ButtonRow :=
  if !cats.support_use_apply_on_spline modifier.type then
    { active := true, widget := .label .EMPTY_SPACE }
  else
    let icon := if modifier.use_apply_on_spline then IconId.USE_APPLY_ON_SPLINE_ON
      else IconId.USE_APPLY_ON_SPLINE_OFF
    { active := true,
      widget := .prop "use_apply_on_spline" (some icon) (!use_in_list) }

/-- `mods.find(name)` on a `bpy_prop_collection`: the index of the modifier
with the given name, or `-1` when absent. -/
def find_index (mods : List Modifier) (name : String) : Int :=
  match mods.findIdx? (fun m => m.name == name) with
  | some i => (i : Int)
  | none => -1

/-- `end_index = np.clip(mod_index, 1, 99)` (modifiers_ui.py line 92). -/
def scan_end_index (mod_index : Int) : Nat :=
  (min (max mod_index 1) 99).toNat

/-- The scan over `mods[0:end_index]` (modifiers_ui.py lines 94-97): is
there an earlier modifier with `show_in_editmode` on whose type is outside
the cage-support set? -/
def is_before_show_in_editmode_on (cats : ModifierCategories)
    (mods : List Modifier) (mod_index : Int) : Bool :=
  (mods.take (scan_end_index mod_index)).any fun mod =>
    mod.show_in_editmode && !cats.support_show_on_cage mod.type

/-- The scan over `mods[(mod_index + 1):(len(mods))]` (modifiers_ui.py
lines 106-109): is there a later modifier with `show_viewport`,
`show_in_editmode` and `show_on_cage` all on? -/
def is_after_show_on_cage_on (mods : List Modifier) (mod_index : Int) : Bool :=
  (mods.drop (mod_index + 1).toNat).any fun mod =>
    mod.show_viewport && mod.show_in_editmode && mod.show_on_cage

/-- `show_on_cage_button` (modifiers_ui.py lines 80-127).  The Python
function returns `False` without adding anything to the layout either when
the modifier's category does not support `show_on_cage` or when the
before-scan finds a blocker, and otherwise adds one button row and returns
`True`.  Modelled as the returned flag paired with the row added, if any. -/
def show_on_cage_button (cats : ModifierCategories) (object : MLObject)
    (modifier : Modifier) (use_in_list : Bool) : Bool × Option ButtonRow :=
  if !cats.support_show_on_cage modifier.type then
    (false, none)
  else
    let mods := object.modifiers
    let mod_index := find_index mods modifier.name
    if is_before_show_in_editmode_on cats mods mod_index then
      (false, none)
    else
      let is_after := is_after_show_on_cage_on mods mod_index
      let state :=
        if !modifier.show_viewport || !modifier.show_in_editmode || is_after then
          if use_in_list then
            (IconId.SHOW_ON_CAGE_ON_INACTIVE, IconId.SHOW_ON_CAGE_OFF_INACTIVE, true)
          else
            (IconId.SHOW_ON_CAGE_ON, IconId.SHOW_ON_CAGE_OFF, false)
        else
          (IconId.SHOW_ON_CAGE_ON, IconId.SHOW_ON_CAGE_OFF, true)
      let icon := if modifier.show_on_cage then state.1 else state.2.1
      (true, some { active := state.2.2,
                    widget := .prop "show_on_cage" (some icon) (!use_in_list) })

/-- The ambient host state read by the UI helpers beyond their explicit
arguments: `bpy.context.area.type` and `bpy.app.version` are actually
consulted by `mesh_properties_context_change_button`; the remaining fields
stand for further ambient context (present in `bpy.context` but never read
by the visibility resolver). -/
structure AmbientContext where
  area_type : String
  version : Nat × Nat × Nat
  region_width : Nat
  scene_frame : Int
deriving DecidableEq, Repr

/-- `curve_properties_context_change_button` (modifiers_ui.py lines
130-138). -/
def curve_properties_context_change_button (use_in_list : Bool) : ButtonRow :=
  if use_in_list then
    { active := true, widget := .label .EMPTY_SPACE }
  else
    { active := true, widget := .contextChange "PHYSICS" }

/-- `mesh_properties_context_change_button` (modifiers_ui.py lines
141-175): returns whether a button was added, and the row added, if any.
Note the reads of `bpy.context.area.type` and `bpy.app.version`. -/
def mesh_properties_context_change_button (ctx : AmbientContext)
    (modifier : Modifier) (use_in_list : Bool) : Bool × Option ButtonRow :=
  if ctx.area_type != "PROPERTIES" || use_in_list then
    (false, none)
  else
    let have_phys_context_button : List String :=
      if ctx.version.1 == 2 && ctx.version.2.1 < 82 then
        ["CLOTH", "COLLISION", "FLUID_SIMULATION", "DYNAMIC_PAINT", "SMOKE",
         "SOFT_BODY"]
      else
        ["CLOTH", "COLLISION", "FLUID", "DYNAMIC_PAINT", "SOFT_BODY"]
    if have_phys_context_button.contains modifier.type then
      (true, some { active := true, widget := .contextChange "PHYSICS" })
    else if modifier.type == "PARTICLE_SYSTEM" then
      (true, some { active := true, widget := .contextChange "PARTICLES" })
    else
      (false, none)

/-- `modifier_visibility_buttons` (modifiers_ui.py lines 178-240): the
sequence of button rows added for one modifier.  Purely cosmetic calls
(`scale_x`, row nesting for alignment) are not modelled; the rows appear in
the order the source adds them.  The active object `ob` is obtained in the
source through the ambient `get_ml_active_object()`; it is an explicit
argument here. -/
def modifier_visibility_buttons (cats : ModifierCategories)
    (ctx : AmbientContext) (ob : MLObject) (modifier : Modifier)
    (use_in_list : Bool) : List ButtonRow :=
  let emboss := !use_in_list
  -- show_render and show_viewport (suppressed for the collision modifier)
  let visToggles : List ButtonRow :=
    if modifier.type == "COLLISION" then
      [{ active := true, widget := .label .EMPTY_SPACE },
       { active := true, widget := .label .EMPTY_SPACE }]
    else
      [{ active := true, widget := .prop "show_render" none emboss },
       { active := true, widget := .prop "show_viewport" none emboss }]
  let editmodeRow := show_in_editmode_button cats modifier use_in_list
  -- No use_apply_on_spline or show_on_cage for lattices
  if ob.type == "LATTICE" then
    visToggles ++ [editmodeRow]
  -- use_apply_on_spline or properties_context_change
  else if ob.type != "MESH" then
    let extra :=
      if modifier.type == "SOFT_BODY" then
        curve_properties_context_change_button use_in_list
      else
        use_apply_on_spline_button cats modifier use_in_list
    visToggles ++ [editmodeRow, extra]
  else
    -- show_on_cage or properties_context_change
    let cage := show_on_cage_button cats ob modifier use_in_list
    let ctxChange :=
      if !cage.1 then mesh_properties_context_change_button ctx modifier use_in_list
      else (false, none)
    -- Empty alignment label if neither was added
    let filler : List ButtonRow :=
      if !cage.1 && !ctxChange.1 then
        [{ active := true, widget := .label .EMPTY_SPACE }]
      else []
    visToggles ++ [editmodeRow] ++ cage.2.toList ++ ctxChange.2.toList ++ filler

-- The list-reorder controller
-- ======================================================================

/-- An escaping Python exception. -/
inductive PyError where
  | indexError
deriving DecidableEq, Repr

/-- `mods[i]` on a `bpy_prop_collection` with a non-negative index:
the element, or an `IndexError` when the index is out of range. -/
def getMod (mods : List Modifier) (i : Nat) : Except PyError Modifier :=
  match mods[i]? with
  | some m => .ok m
  | none => .error .indexError

/-- Moving the element at position `j` one step toward the head, swapping
it with its predecessor; the identity when `j = 0` or `j` is out of
range.  This is the effect of the host's swap-adjacent primitive on the
element at `j`. -/
def moveUpAt : List α → Nat → List α
  | [], _ => []
  | a :: l, 0 => a :: l
  | a :: [], _ + 1 => a :: []
  | a :: b :: l, 1 => b :: a :: l
  | a :: b :: l, j + 2 => a :: moveUpAt (b :: l) (j + 1)

/-- Relocating the element at position `j` to the head, preserving the
relative order of all other elements; the identity when `j` is out of
range.  This is the effect of the host's move-to-index primitive with
target index 0. -/
def moveToFront (l : List α) (j : Nat) : List α :=
  match l[j]? with
  | some a => a :: l.eraseIdx j
  | none => l

/-- Modelled from the spec: the host's swap-adjacent mutation primitive
`bpy.ops.object.modifier_move_up(modifier=name)` (the spec lists the
consumed primitives as append, remove, swap-adjacent and move-to-index):
the named modifier is swapped with its immediate predecessor, a no-op when
it is already first. -/
def modifier_move_up_op (mods : List Modifier) (name : String) : List Modifier :=
  moveUpAt mods (find_index mods name).toNat

/-- Modelled from the spec: the host's move-to-index mutation primitive
`bpy.ops.object.modifier_move_to_index(modifier=name, index=0)`: the named
modifier is relocated to index 0, the relative order of the others kept. -/
def modifier_move_to_index0 (mods : List Modifier) (name : String) : List Modifier :=
  moveToFront mods (find_index mods name).toNat

/-- `OBJECT_OT_ml_modifier_move_up.poll` (modifier_move_up.py lines
18-32): refuse on an empty sequence, on active index 0, and on a non-local
active modifier.  The read `mods[active_mod_index]` raises `IndexError`
when the (non-zero) active index is out of range. -/
def move_up_poll (ob : MLObject) : Except PyError Bool :=
  if ob.modifiers.isEmpty then .ok false
  else if ob.ml_modifier_active_index == 0 then .ok false
  else
    match getMod ob.modifiers ob.ml_modifier_active_index with
    | .error e => .error e
    | .ok mod => .ok (is_modifier_local ob mod)

/-- `OBJECT_OT_ml_modifier_move_up.execute` (modifier_move_up.py lines
34-55).  `atomic_available` models the version test
`float(bpy.app.version_string[0:4].strip(".")) >= 2.90` choosing between
the atomic move-to-index primitive and the repeated single-step fallback;
the new active index of the non-shift branch is
`np.clip(active_mod_index - 1, 0, 999)`. -/
def move_up_execute (shift atomic_available : Bool) (ob : MLObject) :
    Except PyError MLObject :=
  match getMod ob.modifiers ob.ml_modifier_active_index with
  | .error e => .error e
  | .ok active_mod =>
    let active_mod_name := active_mod.name
    let active_mod_index := ob.ml_modifier_active_index
    if shift then
      let mods :=
        if atomic_available then
          modifier_move_to_index0 ob.modifiers active_mod_name
        else
          (fun l => modifier_move_up_op l active_mod_name)^[active_mod_index]
            ob.modifiers
      .ok { ob with modifiers := mods, ml_modifier_active_index := 0 }
    else
      .ok { ob with
            modifiers := modifier_move_up_op ob.modifiers active_mod_name,
            ml_modifier_active_index :=
              (min (max ((active_mod_index : Int) - 1) 0) 999).toNat }

/-- The host runs an operator's `execute` only when its `poll` returns
True; a refused command leaves the state untouched. -/
def move_up_command (shift atomic_available : Bool) (ob : MLObject) :
    Except PyError MLObject :=
  match move_up_poll ob with
  | .error e => .error e
  | .ok true => move_up_execute shift atomic_available ob
  | .ok false => .ok ob

-- Remove-all-modifiers operator
-- ======================================================================

/-- An operator's return status. -/
inductive OpStatus where
  | FINISHED
  | CANCELLED
deriving DecidableEq, Repr

/-- The Python loop `for mod in ob.modifiers: ob.modifiers.remove(mod)`
iterates by index over the live collection: step `i` reads the element now
at position `i`, removes it, and advances to `i + 1`.  Each step shrinks
the collection by one while the cursor advances by one, so the loop makes
at most `len / 2 + 1` steps; the original length is therefore sufficient
fuel, making the recursion structural. -/
def remove_modifiers_go : Nat → List Modifier → Nat → List Modifier
  | 0, mods, _ => mods
  | fuel + 1, mods, i =>
    if i < mods.length then remove_modifiers_go fuel (mods.eraseIdx i) (i + 1)
    else mods

/-- The whole removal loop of one object, starting at cursor 0. -/
def remove_modifiers_loop (mods : List Modifier) : List Modifier :=
  remove_modifiers_go mods.length mods 0

/-- `OBJECT_OT_ml_remove_all_modifiers.execute`
(object_remove_all_modifiers.py lines 14-34): the updated selected
objects, the `self.report` message, and the return status.
`obs_have_mods` is set inside the removal loop, hence true exactly when
some selected object had a nonempty sequence. -/
def remove_all_execute (obs : List MLObject) :
    List MLObject × String × OpStatus :=
  if obs.isEmpty then
    (obs, "No selection", .CANCELLED)
  else
    let obs_after := obs.map fun ob =>
      { ob with modifiers := remove_modifiers_loop ob.modifiers }
    let obs_have_mods := obs.any fun ob => !ob.modifiers.isEmpty
    if !obs_have_mods then
      (obs_after, "No modifiers to remove", .CANCELLED)
    else
      (obs_after, "Removed all modifiers", .FINISHED)

-- UI draw paths dereferencing the active index
-- ======================================================================

/-- Summary of a draw call for the stale-index analysis: either the
inline corrective prompt (the out-of-range label plus the
`object.ml_reset_modifier_active_index` button) was drawn and the function
returned early, or the draw completed, recording every modifier obtained
by indexing the sequence with the active index. -/
inductive UIDraw where
  | outOfRangePrompt
  | drawn (dereferenced : List Modifier)
deriving DecidableEq, Repr

/-- The active-index accesses of `modifiers_ui` (modifiers_ui.py lines
515-753), keeping the guard and every `ob.modifiers[...]` indexed by the
active index and abstracting the pure widget layout between them:
the out-of-range guard (lines 525-528), the `context_pointer_set`
dereference under `if ob.modifiers:` (line 533), the early return on an
empty sequence (line 657), and the `active_mod` dereference (line 660). -/
def modifiers_ui (ob : MLObject) : Except PyError UIDraw :=
  let active_mod_index := ob.ml_modifier_active_index
  if !ob.modifiers.isEmpty && decide (active_mod_index > ob.modifiers.length - 1) then
    .ok .outOfRangePrompt
  else
    match (if ob.modifiers.isEmpty then .ok [] else
             (getMod ob.modifiers active_mod_index).map fun m => [m] :
           Except PyError (List Modifier)) with
    | .error e => .error e
    | .ok ctxMods =>
      if ob.modifiers.isEmpty then .ok (.drawn ctxMods)
      else
        match getMod ob.modifiers active_mod_index with
        | .error e => .error e
        | .ok active_mod => .ok (.drawn (ctxMods ++ [active_mod]))

/-- The active-index accesses of
`OBJECT_PT_ml_gizmo_object_settings.draw` (modifiers_ui.py lines 441-509):
it returns early on an empty sequence (line 449) and otherwise indexes the
sequence with the raw active index (line 453), with no range guard. -/
def gizmo_object_settings_draw (ob : MLObject) : Except PyError UIDraw :=
  if ob.modifiers.isEmpty then .ok (.drawn [])
  else
    match getMod ob.modifiers ob.ml_modifier_active_index with
    | .error e => .error e
    | .ok active_mod => .ok (.drawn [active_mod])

-- Predicates naming button states, used by the theorems below
-- ======================================================================

/-- The empty placeholder row drawn when the `show_in_editmode` button is
suppressed for an unsupported category. -/
def suppressed_placeholder_row : ButtonRow :=
  { active := true, widget := .label .EMPTY_SPACE }

/-- In-list mode signals a disabled `show_in_editmode` toggle through the
visually muted icon variants instead of disabling the row. -/
def editmode_icon_muted (r : ButtonRow) : Bool :=
  match r.widget with
  | .prop _ (some ic) _ =>
      ic == .SHOW_IN_EDITMODE_ON_INACTIVE || ic == .SHOW_IN_EDITMODE_OFF_INACTIVE
  | _ => false

/-- In-list mode signals an inactive `show_on_cage` toggle through the
inactive icon variants. -/
def cage_icon_inactive (r : ButtonRow) : Bool :=
  match r.widget with
  | .prop _ (some ic) _ =>
      ic == .SHOW_ON_CAGE_ON_INACTIVE || ic == .SHOW_ON_CAGE_OFF_INACTIVE
  | _ => false

-- Concrete instances used by the closed theorems below
-- ======================================================================

/-- A default modifier record to fill in unexercised flags. -/
def baseMod : Modifier :=
  { type := "MIRROR", name := "", show_render := true, show_viewport := true,
    show_in_editmode := false, show_on_cage := false,
    use_apply_on_spline := false, isLocal := true }

/-- Concrete category sets for the closed instances: `MIRROR` is the one
cage-capable category, every category supports `show_in_editmode`, and
none supports `use_apply_on_spline`. -/
def sampleCats : ModifierCategories :=
  { dont_support_show_in_editmode := fun _ => false,
    support_show_on_cage := fun t => t == "MIRROR",
    support_use_apply_on_spline := fun _ => false }

/-- An earlier modifier with `show_in_editmode` on whose category is
outside the cage-support set. -/
def blockerMod : Modifier :=
  { baseMod with type := "SUBSURF", name := "A", show_in_editmode := true }

/-- A cage-capable target modifier, visible in the viewport and in edit
mode. -/
def cageTargetMod : Modifier :=
  { baseMod with type := "MIRROR", name := "B", show_in_editmode := true }

/-- The object of the spec's first resolver example: a non-cage-capable
modifier with `show_in_editmode` on, followed by a cage-capable one. -/
def blockedCageOb : MLObject :=
  { type := "MESH", modifiers := [blockerMod, cageTargetMod],
    ml_modifier_active_index := 1 }

/-- A later modifier with `show_viewport`, `show_in_editmode` and
`show_on_cage` all on. -/
def cageOwnerMod : Modifier :=
  { baseMod with
      type := "MIRROR", name := "C", show_in_editmode := true, show_on_cage := true }

/-- The object of the spec's second resolver example: two cage-capable
modifiers with the later one owning the cage. -/
def ownedCageOb : MLObject :=
  { type := "MESH", modifiers := [cageTargetMod, cageOwnerMod],
    ml_modifier_active_index := 0 }

/-- A three-modifier object with the active entry at the tail, for the
reorder witnesses. -/
def threeModOb : MLObject :=
  { type := "MESH",
    modifiers := [{ baseMod with name := "A" }, { baseMod with name := "B" },
                  { baseMod with name := "C" }],
    ml_modifier_active_index := 2 }

/-- A modifier sequence of 1002 entries with distinct names. -/
def bigMods : List Modifier :=
  (List.range 1002).map fun n => { baseMod with name := toString n }

/-- An object whose active index (1001) exceeds the 0-999 clip range of
the single-step move-up index update. -/
def bigOb : MLObject :=
  { type := "MESH", modifiers := bigMods, ml_modifier_active_index := 1001 }

/-- One selected object with two modifiers, for the removal loop. -/
def twoModOb : MLObject :=
  { type := "MESH", modifiers := [blockerMod, cageTargetMod],
    ml_modifier_active_index := 0 }

/-- An object whose single remaining modifier survives the first removal
pass. -/
def oneModOb : MLObject :=
  { type := "MESH", modifiers := [cageTargetMod],
    ml_modifier_active_index := 0 }

/-- A stale object: one modifier but the active index pointing at 1. -/
def staleOb : MLObject :=
  { type := "MESH", modifiers := [{ baseMod with name := "A" }],
    ml_modifier_active_index := 1 }

/-- A cloth modifier: in the physics-context set, not cage-capable. -/
def clothMod : Modifier :=
  { baseMod with type := "CLOTH", name := "Cloth" }

/-- A mesh object carrying only the cloth modifier. -/
def clothOb : MLObject :=
  { type := "MESH", modifiers := [clothMod], ml_modifier_active_index := 0 }

/-- An ambient context inside the properties editor, host version 2.83. -/
def propsCtx : AmbientContext :=
  { area_type := "PROPERTIES", version := (2, 83, 0), region_width := 300,
    scene_frame := 1 }

/-- The same ambient state but in the 3D viewport. -/
def viewCtx : AmbientContext :=
  { propsCtx with area_type := "VIEW_3D" }

/-- The same ambient state as `propsCtx` except for fields the resolver
never reads. -/
def propsCtxWide : AmbientContext :=
  { propsCtx with region_width := 1000, scene_frame := 42 }

/-- The cloth object with a different (stale) active index, agreeing with
`clothOb` on the sequence and the object type. -/
def clothObOtherIndex : MLObject :=
  { clothOb with ml_modifier_active_index := 7 }

-- Helper lemmas
-- ======================================================================

theorem moveUpAt_cons_two (a b : α) (l : List α) (j : Nat) :
    moveUpAt (a :: b :: l) (j + 2) = a :: moveUpAt (b :: l) (j + 1) := by
  simp [moveUpAt]

theorem length_moveUpAt : (l : List α) → (j : Nat) → (moveUpAt l j).length = l.length
  | [], _ => by simp [moveUpAt]
  | a :: l, 0 => by simp [moveUpAt]
  | a :: [], _ + 1 => by simp [moveUpAt]
  | a :: b :: l, 1 => by simp [moveUpAt]
  | a :: b :: l, j + 2 => by
    rw [moveUpAt_cons_two]
    simp only [List.length_cons]
    rw [length_moveUpAt (b :: l) (j + 1)]
    simp

theorem moveUpAt_perm : (l : List α) → (j : Nat) → (moveUpAt l j).Perm l
  | [], j => by simp [moveUpAt]
  | a :: l, 0 => by simp [moveUpAt]
  | a :: [], j + 1 => by simp [moveUpAt]
  | a :: b :: l, 1 => by
    have : moveUpAt (a :: b :: l) 1 = b :: a :: l := by simp [moveUpAt]
    rw [this]
    exact List.Perm.swap a b l
  | a :: b :: l, j + 2 => by
    rw [moveUpAt_cons_two]
    exact (moveUpAt_perm (b :: l) (j + 1)).cons a

theorem getElem?_moveUpAt_pred : (l : List α) → (j : Nat) → j + 1 < l.length →
    (moveUpAt l (j + 1))[j]? = l[j + 1]?
  | [], j, h => by simp at h
  | _ :: [], j, h => by simp at h
  | a :: b :: l, 0, _ => by simp [moveUpAt]
  | a :: b :: l, j + 1, h => by
    have h' : j + 1 < (b :: l).length := by
      simp only [List.length_cons] at h ⊢; omega
    rw [show j + 1 + 1 = j + 2 from rfl, moveUpAt_cons_two,
      List.getElem?_cons_succ, List.getElem?_cons_succ]
    exact getElem?_moveUpAt_pred (b :: l) j h'

theorem eraseIdx_moveUpAt : (l : List α) → (j : Nat) → j + 1 < l.length →
    (moveUpAt l (j + 1)).eraseIdx j = l.eraseIdx (j + 1)
  | [], j, h => by simp at h
  | _ :: [], j, h => by simp at h
  | a :: b :: l, 0, _ => by simp [moveUpAt]
  | a :: b :: l, j + 1, h => by
    have h' : j + 1 < (b :: l).length := by
      simp only [List.length_cons] at h ⊢; omega
    rw [show j + 1 + 1 = j + 2 from rfl, moveUpAt_cons_two,
      List.eraseIdx_cons_succ, List.eraseIdx_cons_succ,
      eraseIdx_moveUpAt (b :: l) j h']

theorem moveToFront_moveUpAt (l : List α) (j : Nat) (h : j + 1 < l.length) :
    moveToFront (moveUpAt l (j + 1)) j = moveToFront l (j + 1) := by
  have hc : l[j + 1]? = some l[j + 1] := List.getElem?_eq_getElem h
  unfold moveToFront
  rw [getElem?_moveUpAt_pred l j h, hc, eraseIdx_moveUpAt l j h]

/-- With pairwise distinct names, the by-name index lookup of the entry
stored at position `i` returns `i`. -/
theorem findIdx?_name_eq {mods : List Modifier} {i : Nat} {m : Modifier}
    (hnd : (mods.map Modifier.name).Nodup) (hi : mods[i]? = some m) :
    mods.findIdx? (fun x => x.name == m.name) = some i := by
  induction mods generalizing i with
  | nil => simp at hi
  | cons a l ih =>
    rw [List.map_cons, List.nodup_cons] at hnd
    cases i with
    | zero =>
      simp only [List.getElem?_cons_zero, Option.some_inj] at hi
      subst hi
      simp [List.findIdx?_cons]
    | succ j =>
      simp only [List.getElem?_cons_succ] at hi
      have hmem : m ∈ l := List.mem_iff_getElem?.mpr ⟨j, hi⟩
      have hne : (a.name == m.name) = false := by
        have : m.name ∈ l.map Modifier.name := List.mem_map_of_mem _ hmem
        simp only [beq_eq_false_iff_ne, ne_eq]
        intro hEq
        exact hnd.1 (hEq ▸ this)
      rw [List.findIdx?_cons, hne]
      simp only [Bool.false_eq_true, if_false]
      rw [List.findIdx?_succ, ih hnd.2 hi]
      rfl

theorem find_index_eq {mods : List Modifier} {i : Nat} {m : Modifier}
    (hnd : (mods.map Modifier.name).Nodup) (hi : mods[i]? = some m) :
    find_index mods m.name = (i : Int) := by
  unfold find_index
  rw [findIdx?_name_eq hnd hi]

/-- Under distinct names, one application of the host swap-adjacent
primitive on the entry at position `j + 1` is `moveUpAt` at `j + 1`. -/
theorem modifier_move_up_op_eq {mods : List Modifier} {j : Nat} {m : Modifier}
    (hnd : (mods.map Modifier.name).Nodup) (hi : mods[j]? = some m) :
    modifier_move_up_op mods m.name = moveUpAt mods j := by
  unfold modifier_move_up_op
  rw [find_index_eq hnd hi]
  simp

/-- Repeating the single-step swap `i` times, re-finding the entry by name
each time as the source does, relocates the entry at position `i` to the
front. -/
theorem iterate_move_up_eq_moveToFront {i : Nat} {mods : List Modifier}
    {m : Modifier} (hnd : (mods.map Modifier.name).Nodup)
    (hi : mods[i]? = some m) :
    (fun l => modifier_move_up_op l m.name)^[i] mods = moveToFront mods i := by
  induction i generalizing mods with
  | zero =>
    cases mods with
    | nil => simp at hi
    | cons a l =>
      simp only [List.getElem?_cons_zero, Option.some_inj] at hi
      simp [moveToFront, Function.iterate_zero]
  | succ j ih =>
    have hlen : j + 1 < mods.length := (List.getElem?_eq_some.mp hi).1
    rw [Function.iterate_succ_apply, modifier_move_up_op_eq hnd hi]
    have hperm : (moveUpAt mods (j + 1)).Perm mods := moveUpAt_perm mods (j + 1)
    have hnd' : ((moveUpAt mods (j + 1)).map Modifier.name).Nodup :=
      ((hperm.map Modifier.name).nodup_iff).mpr hnd
    have hi' : (moveUpAt mods (j + 1))[j]? = some m := by
      rw [getElem?_moveUpAt_pred mods j hlen]; exact hi
    rw [ih hnd' hi']
    exact moveToFront_moveUpAt mods j hlen

/-- Characterization of the before-scan: positions `0` through
`min (max i 1) 99 - 1` are inspected (truncated at the sequence length). -/
theorem before_scan_iff (cats : ModifierCategories) (mods : List Modifier)
    (i : Nat) :
    is_before_show_in_editmode_on cats mods (i : Int) = true ↔
      ∃ j, j < Nat.min (Nat.max i 1) 99 ∧ ∃ mj, mods[j]? = some mj ∧
        mj.show_in_editmode = true ∧ cats.support_show_on_cage mj.type = false := by
  have hcast : ((Nat.min (Nat.max i 1) 99 : Nat) : Int) = min (max (i : Int) 1) 99 := by
    push_cast
    rfl
  have hend : scan_end_index (i : Int) = Nat.min (Nat.max i 1) 99 := by
    unfold scan_end_index
    rw [← hcast]
    omega
  unfold is_before_show_in_editmode_on
  rw [hend, List.any_eq_true]
  constructor
  · rintro ⟨x, hmem, hx⟩
    obtain ⟨j, hj⟩ := List.mem_iff_getElem?.mp hmem
    rw [List.getElem?_take] at hj
    by_cases hlt : j < Nat.min (Nat.max i 1) 99
    · rw [if_pos hlt] at hj
      refine ⟨j, hlt, x, hj, ?_, ?_⟩
      · exact (Bool.and_eq_true _ _ |>.mp hx).1
      · have := (Bool.and_eq_true _ _ |>.mp hx).2
        simpa using this
    · rw [if_neg hlt] at hj
      exact absurd hj (by simp)
  · rintro ⟨j, hlt, mj, hj, hsem, hsupp⟩
    refine ⟨mj, ?_, ?_⟩
    · exact List.mem_iff_getElem?.mpr ⟨j, by rw [List.getElem?_take, if_pos hlt]; exact hj⟩
    · simp [hsem, hsupp]

/-- Characterization of the after-scan: exactly the positions strictly
after `i` are inspected. -/
theorem after_scan_iff (mods : List Modifier) (i : Nat) :
    is_after_show_on_cage_on mods (i : Int) = true ↔
      ∃ k, i < k ∧ ∃ mk, mods[k]? = some mk ∧
        mk.show_viewport = true ∧ mk.show_in_editmode = true ∧
        mk.show_on_cage = true := by
  have hnat : ((i : Int) + 1).toNat = i + 1 := by omega
  unfold is_after_show_on_cage_on
  rw [hnat, List.any_eq_true]
  constructor
  · rintro ⟨x, hmem, hx⟩
    obtain ⟨j, hj⟩ := List.mem_iff_getElem?.mp hmem
    rw [List.getElem?_drop] at hj
    have hx' := Bool.and_eq_true _ _ |>.mp hx
    have hx'' := Bool.and_eq_true _ _ |>.mp hx'.1
    exact ⟨i + 1 + j, by omega, x, hj, hx''.1, hx''.2, hx'.2⟩
  · rintro ⟨k, hik, mk, hk, h1, h2, h3⟩
    refine ⟨mk, ?_, by simp [h1, h2, h3]⟩
    refine List.mem_iff_getElem?.mpr ⟨k - (i + 1), ?_⟩
    rw [List.getElem?_drop]
    have : i + 1 + (k - (i + 1)) = k := by omega
    rw [this]; exact hk

-- Claim theorems
-- ======================================================================

/-- C10: for a target at index `i`, the before-scan of the show_on_cage
resolver inspects exactly the positions `0` through
`min (max i 1) 99 - 1` (truncated at the sequence length): the scan flag
is on precisely when one of those positions holds a modifier with
`show_in_editmode` on and a type outside the cage-support set.  In
particular for `i = 0` position 0 (the target itself) is inspected, and
for `i > 99` the positions `99` through `i - 1` are not. -/
theorem C10_before_scan_inspects_clipped_prefix (cats : ModifierCategories)
    (mods : List Modifier) (i : Nat) :
    is_before_show_in_editmode_on cats mods (i : Int) = true ↔
      ∃ j, j < Nat.min (Nat.max i 1) 99 ∧ ∃ mj, mods[j]? = some mj ∧
        mj.show_in_editmode = true ∧
        cats.support_show_on_cage mj.type = false :=
  before_scan_iff cats mods i

/-- C1 counterexample: on the spec's own example — a non-cage-capable
modifier with `show_in_editmode` on followed by a cage-capable target —
`show_on_cage_button` returns `False` without rendering any button, so
the claim that the button is rendered in a forced off-state is false. -/
theorem C1_counterexample_button_not_rendered :
    show_on_cage_button sampleCats blockedCageOb cageTargetMod false =
      (false, none) := by
  decide

/-- C1 (amended): when some modifier at a scanned position (an index
below `min (max i 1) 99`) has `show_in_editmode` on and a type outside
the cage-support set, the resolver does not render the target's
show_on_cage button at all: it returns `False` and adds no row, and the
caller falls back to the context-change button or an empty placeholder. -/
theorem C1_earlier_blocker_suppresses_cage_button
    (cats : ModifierCategories) (ob : MLObject) (m : Modifier) (uil : Bool)
    (i : Nat) (hnd : (ob.modifiers.map Modifier.name).Nodup)
    (hi : ob.modifiers[i]? = some m)
    (hsupp : cats.support_show_on_cage m.type = true)
    (hblock : ∃ j, j < Nat.min (Nat.max i 1) 99 ∧ ∃ mj,
      ob.modifiers[j]? = some mj ∧ mj.show_in_editmode = true ∧
      cats.support_show_on_cage mj.type = false) :
    show_on_cage_button cats ob m uil = (false, none) := by
  have hbefore : is_before_show_in_editmode_on cats ob.modifiers (i : Int) = true :=
    (before_scan_iff cats ob.modifiers i).mpr hblock
  simp [show_on_cage_button, hsupp, find_index_eq hnd hi, hbefore]

/-- C1 witness: the amended theorem applied to the two-modifier example
in in-list mode. -/
theorem C1_witness :
    show_on_cage_button sampleCats blockedCageOb cageTargetMod true =
      (false, none) :=
  C1_earlier_blocker_suppresses_cage_button sampleCats blockedCageOb
    cageTargetMod true 1 (by decide) (by decide) (by decide)
    ⟨0, by decide, blockerMod, by decide, by decide, by decide⟩

/-- C5: for a cage-capable target with no disqualifying earlier modifier,
if some later modifier has `show_viewport`, `show_in_editmode` and
`show_on_cage` all on, the target's show_on_cage button is rendered but
inactive: the row is disabled in detail-panel mode, and the inactive icon
variants are used in in-list mode. -/
theorem C5_later_cage_owner_renders_inactive_button
    (cats : ModifierCategories) (ob : MLObject) (m : Modifier) (uil : Bool)
    (i : Nat) (hnd : (ob.modifiers.map Modifier.name).Nodup)
    (hi : ob.modifiers[i]? = some m)
    (hsupp : cats.support_show_on_cage m.type = true)
    (hnoblock : is_before_show_in_editmode_on cats ob.modifiers (i : Int) = false)
    (hafter : ∃ k, i < k ∧ ∃ mk, ob.modifiers[k]? = some mk ∧
      mk.show_viewport = true ∧ mk.show_in_editmode = true ∧
      mk.show_on_cage = true) :
    ∃ row, show_on_cage_button cats ob m uil = (true, some row) ∧
      (uil = false → row.active = false) ∧
      (uil = true → row.active = true ∧ cage_icon_inactive row = true) := by
  have haft : is_after_show_on_cage_on ob.modifiers (i : Int) = true :=
    (after_scan_iff ob.modifiers i).mpr hafter
  cases uil with
  | false =>
    simp only [show_on_cage_button, hsupp, find_index_eq hnd hi, hnoblock, haft,
      Bool.not_true, Bool.false_eq_true, if_false, Bool.or_true, if_true,
      Bool.true_eq_false]
    exact ⟨_, rfl, fun _ => rfl, fun h => by simp at h⟩
  | true =>
    simp only [show_on_cage_button, hsupp, find_index_eq hnd hi, hnoblock, haft,
      Bool.not_true, Bool.false_eq_true, if_false, Bool.or_true, if_true]
    refine ⟨_, rfl, fun h => by simp at h, fun _ => ⟨rfl, ?_⟩⟩
    cases m.show_on_cage <;> rfl

/-- C5 witness: the theorem applied to the spec's example — two
cage-capable modifiers, the later one owning the cage — in detail-panel
mode. -/
theorem C5_witness :
    ∃ row, show_on_cage_button sampleCats ownedCageOb cageTargetMod false =
        (true, some row) ∧
      (false = false → row.active = false) ∧
      (false = true → row.active = true ∧ cage_icon_inactive row = true) :=
  C5_later_cage_owner_renders_inactive_button sampleCats ownedCageOb
    cageTargetMod false 0 (by decide) (by decide) (by decide) (by decide)
    ⟨1, by decide, cageOwnerMod, by decide, by decide, by decide⟩

/-- C8: the show_in_editmode button is the empty placeholder exactly when
the modifier's category is in the unsupported set; otherwise, in
detail-panel mode the row is enabled iff `show_viewport` is on, while in
in-list mode the row is always enabled and the muted icon variant is used
exactly when `show_viewport` is off. -/
theorem C8_show_in_editmode_button_states (cats : ModifierCategories)
    (m : Modifier) :
    (∀ uil, show_in_editmode_button cats m uil = suppressed_placeholder_row ↔
      cats.dont_support_show_in_editmode m.type = true) ∧
    (cats.dont_support_show_in_editmode m.type = false →
      (show_in_editmode_button cats m false).active = m.show_viewport ∧
      (show_in_editmode_button cats m true).active = true ∧
      editmode_icon_muted (show_in_editmode_button cats m true) =
        !m.show_viewport ∧
      editmode_icon_muted (show_in_editmode_button cats m false) = false) := by
  cases h : cats.dont_support_show_in_editmode m.type with
  | true =>
    constructor
    · intro uil
      simp [show_in_editmode_button, h, suppressed_placeholder_row]
    · intro hc
      simp [h] at hc
  | false =>
    constructor
    · intro uil
      simp [show_in_editmode_button, h, suppressed_placeholder_row]
    · intro _
      cases hv : m.show_viewport <;> cases he : m.show_in_editmode <;>
        simp [show_in_editmode_button, h, hv, he, editmode_icon_muted]

/-- C8 witness: the non-suppressed detail-panel case evaluated on a
sample modifier. -/
theorem C8_witness :
    sampleCats.dont_support_show_in_editmode cageTargetMod.type = false ∧
    (show_in_editmode_button sampleCats cageTargetMod false).active =
      cageTargetMod.show_viewport :=
  ⟨by decide,
   ((C8_show_in_editmode_button_states sampleCats cageTargetMod).2
     (by decide)).1⟩

/-- C2: with the active entry at index `i > 0` (names being unique within
an object), the repeated-single-step fallback of the jump-to-top move
produces exactly the same end state as the atomic move-to-index-0
primitive: the entry ends at index 0, the relative order of all other
entries is preserved, and the active index is set to 0. -/
theorem C2_jump_to_top_fallback_matches_atomic
    (ob : MLObject) (m : Modifier) (i : Nat)
    (hnd : (ob.modifiers.map Modifier.name).Nodup)
    (hidx : ob.ml_modifier_active_index = i)
    (hi : ob.modifiers[i]? = some m) (hpos : 0 < i) :
    move_up_execute true false ob = move_up_execute true true ob ∧
    move_up_execute true false ob =
      .ok { ob with
              modifiers := m :: ob.modifiers.eraseIdx i,
              ml_modifier_active_index := 0 } := by
  have hfall : (fun l => modifier_move_up_op l m.name)^[i] ob.modifiers =
      moveToFront ob.modifiers i :=
    iterate_move_up_eq_moveToFront hnd hi
  have hatomic : modifier_move_to_index0 ob.modifiers m.name =
      moveToFront ob.modifiers i := by
    unfold modifier_move_to_index0
    rw [find_index_eq hnd hi]
    simp
  have hmf : moveToFront ob.modifiers i = m :: ob.modifiers.eraseIdx i := by
    unfold moveToFront
    rw [hi]
  simp only [move_up_execute, getMod, hidx, hi, if_true, Bool.true_eq_false,
    Bool.false_eq_true, if_false, hfall, hatomic, hmf, and_self]

/-- C2 witness: both shift-move variants evaluated on a three-modifier
object with the active entry at the tail. -/
theorem C2_witness :
    move_up_execute true false threeModOb = move_up_execute true true threeModOb :=
  (C2_jump_to_top_fallback_matches_atomic threeModOb { baseMod with name := "C" }
    2 (by decide) (by decide) (by decide) (by decide)).1

set_option maxRecDepth 4000 in
/-- C4 counterexample: on a 1002-modifier object with the active entry at
index 1001, the single-step move-up sets the active index to 999 — the
source clips to the fixed range 0 to 999 — whereas the claim (clamping to
the valid index range) requires 1000. -/
theorem C4_counterexample_clip_at_999 :
    (move_up_execute false true bigOb).toOption.map
      (fun r => r.ml_modifier_active_index) = some 999 ∧
    (999 : Nat) ≠ 1001 - 1 := by
  have hidx : bigOb.ml_modifier_active_index = 1001 := rfl
  have hlen2 : bigMods.length = 1002 := by
    unfold bigMods
    rw [List.length_map, List.length_range]
  have hlen : bigOb.ml_modifier_active_index < bigOb.modifiers.length := by
    have h2 : bigOb.modifiers.length = 1002 := hlen2
    omega
  obtain ⟨mm, hmm⟩ : ∃ mm, bigOb.modifiers[bigOb.ml_modifier_active_index]? =
      some mm :=
    ⟨_, List.getElem?_eq_getElem hlen⟩
  constructor
  · simp only [move_up_execute, getMod, hmm, Bool.false_eq_true, if_false]
    simp only [Except.toOption, Option.map_some]
    rw [hidx]
    rfl
  · decide

/-- C4 (amended): for every valid active index `i > 0` (names unique),
the single-step move-up swaps the active entry with its predecessor — the
entry ends at `i - 1`, the sequence length is unchanged, and removing the
moved entry from both sequences leaves the same list, so all other
entries keep their relative order — and sets the active index to
`min (i - 1) 999`, i.e. to `i - 1` clipped to the fixed range 0 to 999
rather than to the valid index range. -/
theorem C4_single_step_move_up
    (ob : MLObject) (m : Modifier) (atomic : Bool) (i : Nat)
    (hnd : (ob.modifiers.map Modifier.name).Nodup)
    (hidx : ob.ml_modifier_active_index = i)
    (hi : ob.modifiers[i]? = some m) (hpos : 0 < i) :
    ∃ result, move_up_execute false atomic ob = .ok result ∧
      result.modifiers.length = ob.modifiers.length ∧
      result.modifiers[i - 1]? = some m ∧
      result.modifiers.eraseIdx (i - 1) = ob.modifiers.eraseIdx i ∧
      result.ml_modifier_active_index = min (i - 1) 999 := by
  obtain ⟨j, rfl⟩ : ∃ j, i = j + 1 := ⟨i - 1, by omega⟩
  have hlen : j + 1 < ob.modifiers.length := (List.getElem?_eq_some.mp hi).1
  have hop : modifier_move_up_op ob.modifiers m.name =
      moveUpAt ob.modifiers (j + 1) :=
    modifier_move_up_op_eq hnd hi
  have hint : (min (max (((j + 1 : Nat) : Int) - 1) 0) 999).toNat =
      min (j + 1 - 1) 999 := by
    rcases Nat.le_total (j + 1 - 1) 999 with h | h
    · rw [Nat.min_eq_left h]
      omega
    · rw [Nat.min_eq_right h]
      omega
  refine ⟨{ ob with
              modifiers := moveUpAt ob.modifiers (j + 1),
              ml_modifier_active_index := min (j + 1 - 1) 999 },
    ?_, ?_, ?_, ?_, rfl⟩
  · simp only [move_up_execute, getMod, hidx, hi, Bool.false_eq_true, if_false,
      hop, hint]
  · exact length_moveUpAt ob.modifiers (j + 1)
  · show (moveUpAt ob.modifiers (j + 1))[j]? = some m
    rw [getElem?_moveUpAt_pred ob.modifiers j hlen]
    exact hi
  · show (moveUpAt ob.modifiers (j + 1)).eraseIdx j = ob.modifiers.eraseIdx (j + 1)
    exact eraseIdx_moveUpAt ob.modifiers j hlen

/-- C4 witness: the amended theorem applied to the three-modifier object
with the active entry at index 2. -/
theorem C4_witness :
    ∃ result, move_up_execute false true threeModOb = .ok result ∧
      result.modifiers.length = threeModOb.modifiers.length ∧
      result.modifiers[2 - 1]? = some { baseMod with name := "C" } ∧
      result.modifiers.eraseIdx (2 - 1) = threeModOb.modifiers.eraseIdx 2 ∧
      result.ml_modifier_active_index = min (2 - 1) 999 :=
  C4_single_step_move_up threeModOb { baseMod with name := "C" } true 2
    (by decide) (by decide) (by decide) (by decide)

/-- C6: under the data-model invariant (a valid active index whenever the
sequence is non-empty), the move-up poll never raises, refuses exactly
when the sequence is empty, the active index is 0, or the active entry is
not local, and a refusal leaves the object untouched with no error. -/
theorem C6_move_up_refusal
    (ob : MLObject) (shift atomic : Bool)
    (hinv : ob.modifiers ≠ [] →
      ob.ml_modifier_active_index < ob.modifiers.length) :
    (∃ b, move_up_poll ob = .ok b) ∧
    (move_up_poll ob = .ok false ↔
      (ob.modifiers = [] ∨ ob.ml_modifier_active_index = 0 ∨
        ∃ mod, ob.modifiers[ob.ml_modifier_active_index]? = some mod ∧
          is_modifier_local ob mod = false)) ∧
    (move_up_poll ob = .ok false →
      move_up_command shift atomic ob = .ok ob) := by
  by_cases hemp : ob.modifiers.isEmpty
  · have hpoll : move_up_poll ob = .ok false := by
      simp [move_up_poll, hemp]
    have hnil : ob.modifiers = [] := List.isEmpty_iff.mp hemp
    refine ⟨⟨false, hpoll⟩, ?_, fun _ => ?_⟩
    · simp [hpoll, hnil]
    · simp [move_up_command, hpoll]
  · by_cases hz : ob.ml_modifier_active_index = 0
    · have hpoll : move_up_poll ob = .ok false := by
        simp [move_up_poll, hemp, hz]
      refine ⟨⟨false, hpoll⟩, ?_, fun _ => ?_⟩
      · simp [hpoll, hz]
      · simp [move_up_command, hpoll]
    · have hne : ob.modifiers ≠ [] := fun h => hemp (by simp [h])
      have hlt : ob.ml_modifier_active_index < ob.modifiers.length := hinv hne
      have hsome : ob.modifiers[ob.ml_modifier_active_index]? =
          some ob.modifiers[ob.ml_modifier_active_index] :=
        List.getElem?_eq_getElem hlt
      have hpoll : move_up_poll ob =
          .ok (is_modifier_local ob ob.modifiers[ob.ml_modifier_active_index]) := by
        simp [move_up_poll, hemp, hz, getMod, hsome]
      cases hloc : is_modifier_local ob ob.modifiers[ob.ml_modifier_active_index] with
      | false =>
        rw [hloc] at hpoll
        refine ⟨⟨false, hpoll⟩, ?_, fun _ => ?_⟩
        · simp only [hpoll, true_iff]
          exact Or.inr (Or.inr ⟨_, hsome, hloc⟩)
        · simp [move_up_command, hpoll]
      | true =>
        rw [hloc] at hpoll
        refine ⟨⟨true, hpoll⟩, ?_, fun habs => ?_⟩
        · rw [hpoll]
          constructor
          · intro habs
            exact absurd habs (by simp)
          · rintro (h | h | ⟨mod, hmod, hmodloc⟩)
            · exact absurd h hne
            · exact absurd h hz
            · rw [hsome] at hmod
              injection hmod with hmod
              rw [← hmod] at hmodloc
              rw [hloc] at hmodloc
              exact absurd hmodloc (by simp)
        · rw [hpoll] at habs
          exact absurd habs (by simp)

/-- C6 witness: refusal on an object whose single modifier is at active
index 0 leaves the object untouched. -/
theorem C6_witness :
    move_up_command false false oneModOb = .ok oneModOb :=
  (C6_move_up_refusal oneModOb false false (fun _ => by decide)).2.2 (by rfl)

/-- C3: the remove-all action is not idempotent, because the source
removes during an index-based iteration over the live collection.  On one
selected object with two modifiers, the first invocation leaves one
modifier behind yet reports that all were removed, and the second
invocation removes the survivor and reports the same — it is not the
claimed no-op reporting nothing to remove. -/
theorem C3_remove_all_not_idempotent :
    remove_all_execute [twoModOb] =
      ([{ twoModOb with modifiers := [cageTargetMod] }],
        "Removed all modifiers", .FINISHED) ∧
    remove_all_execute [{ twoModOb with modifiers := [cageTargetMod] }] =
      ([{ twoModOb with modifiers := [] }],
        "Removed all modifiers", .FINISHED) ∧
    [cageTargetMod] ≠ ([] : List Modifier) := by
  refine ⟨?_, ?_, by decide⟩ <;> decide

/-- C7 counterexample: the gizmo-settings panel draw guards only the
empty-sequence case; on an object with one modifier and a stale active
index of 1 it indexes the sequence out of range and an `IndexError`
escapes, instead of an inline corrective prompt. -/
theorem C7_counterexample_gizmo_draw_raises :
    gizmo_object_settings_draw staleOb = .error .indexError := by
  rfl

/-- C7 (amended): the main `modifiers_ui` draw path never lets an
`IndexError` escape — whenever the sequence is non-empty and the active
index is out of range it draws the inline corrective prompt with the
reset action and performs no sequence indexing — but the gizmo-settings
panel draw checks only for an empty sequence and dereferences the raw
active index. -/
theorem C7_modifiers_ui_guards_stale_index (ob : MLObject) :
    (∃ d, modifiers_ui ob = .ok d) ∧
    (ob.modifiers ≠ [] →
      ob.modifiers.length - 1 < ob.ml_modifier_active_index →
      modifiers_ui ob = .ok .outOfRangePrompt) := by
  by_cases hemp : ob.modifiers.isEmpty
  · have h1 : modifiers_ui ob = .ok (.drawn []) := by
      simp [modifiers_ui, hemp]
    exact ⟨⟨_, h1⟩, fun hne _ => absurd (List.isEmpty_iff.mp hemp) hne⟩
  · by_cases hoor : ob.modifiers.length - 1 < ob.ml_modifier_active_index
    · have h1 : modifiers_ui ob = .ok .outOfRangePrompt := by
        simp [modifiers_ui, hemp, hoor]
      exact ⟨⟨_, h1⟩, fun _ _ => h1⟩
    · have hlenpos : ob.modifiers.length ≠ 0 := by
        intro h
        exact hemp (by rw [List.isEmpty_iff, ← List.length_eq_zero]; exact h)
      have hlt : ob.ml_modifier_active_index < ob.modifiers.length := by
        omega
      have hsome : ob.modifiers[ob.ml_modifier_active_index]? =
          some ob.modifiers[ob.ml_modifier_active_index] :=
        List.getElem?_eq_getElem hlt
      have h1 : modifiers_ui ob = .ok (.drawn
          [ob.modifiers[ob.ml_modifier_active_index],
           ob.modifiers[ob.ml_modifier_active_index]]) := by
        simp [modifiers_ui, hemp, hoor, getMod, hsome, Except.map]
      exact ⟨⟨_, h1⟩, fun _ h => absurd h hoor⟩

/-- C7 witness: the amended theorem applied to the stale one-modifier
object: the main draw path shows the corrective prompt. -/
theorem C7_witness :
    (∃ d, modifiers_ui staleOb = .ok d) ∧
    modifiers_ui staleOb = .ok .outOfRangePrompt :=
  ⟨(C7_modifiers_ui_guards_stale_index staleOb).1,
   (C7_modifiers_ui_guards_stale_index staleOb).2 (by decide) (by decide)⟩

/-- C9 counterexample: the visibility resolver is not a pure function of
the stated inputs alone — with the modifier sequence, target modifier,
object type and display mode all identical, changing only the ambient
`bpy.context.area.type` from the properties editor to the 3D viewport
changes the produced layout (the physics context-change button appears
only in the properties editor). -/
theorem C9_counterexample_area_type_leaks :
    modifier_visibility_buttons sampleCats propsCtx clothOb clothMod false ≠
      modifier_visibility_buttons sampleCats viewCtx clothOb clothMod false := by
  decide

/-- C9 (amended): the resolver is deterministic in the stated inputs plus
the ambient area type and host version: any two ambient contexts agreeing
on `area_type` and `version`, and any two objects agreeing on the
modifier sequence and the object type, produce identical button
decisions; no other ambient or persisted state is read. -/
theorem C9_resolver_reads_area_and_version_only
    (cats : ModifierCategories) (ctx ctx2 : AmbientContext)
    (ob ob2 : MLObject) (m : Modifier) (uil : Bool)
    (harea : ctx.area_type = ctx2.area_type)
    (hver : ctx.version = ctx2.version)
    (hmods : ob.modifiers = ob2.modifiers) (htype : ob.type = ob2.type) :
    modifier_visibility_buttons cats ctx ob m uil =
      modifier_visibility_buttons cats ctx2 ob2 m uil := by
  have hmesh : mesh_properties_context_change_button ctx m uil =
      mesh_properties_context_change_button ctx2 m uil := by
    unfold mesh_properties_context_change_button
    rw [harea, hver]
  have hcage : show_on_cage_button cats ob m uil =
      show_on_cage_button cats ob2 m uil := by
    unfold show_on_cage_button
    rw [hmods]
  unfold modifier_visibility_buttons
  rw [htype, hcage, hmesh]

/-- C9 witness: the amended theorem applied to two states that differ
only in ambient fields the resolver never reads (region width, scene
frame) and in the active index. -/
theorem C9_witness :
    modifier_visibility_buttons sampleCats propsCtx clothOb clothMod false =
      modifier_visibility_buttons sampleCats propsCtxWide clothObOtherIndex
        clothMod false :=
  C9_resolver_reads_area_and_version_only sampleCats propsCtx propsCtxWide
    clothOb clothObOtherIndex clothMod false rfl rfl rfl rfl

end ModifierList
